import Mathlib

/-!
Shallow embedding of the `bevy_winit` event-loop driver and update-mode
scheduler, covering the two revisions present in the repository:

* `src/crates/bevy_winit/src/state.rs` together with
  `src/crates/bevy_winit/src/winit_event_filter.rs` (the filter-based
  revision; `WinitAppRunnerState`, `should_update`, `run_app_update`,
  `handle_winit_event`), and
* `src/crates/bevy_winit/src/lib.rs` (the flag-based revision; modelled
  here only through its `WinitAppRunnerState.reset_on_update`,
  `ActiveState.should_run` and `run_app_update_if_should`, inside the
  `LibRs` namespace).

Machine integers: `startup_forced_updates` is a `u32` that is only ever
decremented after a positivity test, so it is modelled as `Nat`.
Instants and durations are modelled as `Nat` nanosecond counts with an
explicit overflow bound for `Instant::checked_add`.

World interaction (ECS resources, windows, plugin lifecycle) is modelled
by a per-event environment record `WorldEnv` holding exactly the values
the runner reads from the world, and by ghost observables in
`StepOutput` recording what the runner did to the world (whether
`run_app_update` was invoked, whether `app.update()` ran, which control
flow was set, whether the redraw flush fired).
-/

/-- Lifecycle states of the runner in `state.rs` (enum `UpdateState`,
state.rs lines 105-112). -/
inductive UpdateState where
  | notYetStarted
  | active
  | suspended
  | willSuspend
  | willResume
deriving DecidableEq, Repr

/-- state.rs lines 114-122: `is_active` is true for
`Active | WillSuspend | WillResume` and false for
`NotYetStarted | Suspended`. -/
def UpdateState.is_active (s : UpdateState) : Bool :=
  match s with
  | .notYetStarted | .suspended => false
  | .active | .willSuspend | .willResume => true

/-- Plugin lifecycle phase read from the app (`bevy_app::PluginsState`);
the runner only distinguishes `Ready` and `Cleaned` from the rest. -/
inductive PluginsState where
  | adding
  | ready
  | finished
  | cleaned
deriving DecidableEq, Repr

/-- Update-mode policy as used by `state.rs`, `winit_event_filter.rs` and
`examples/window/framerate.rs`: enum with a `Continuous` variant and a
`Reactive` variant carrying the wait duration and the three reactivity
flags (the variant fields are pinned by the pattern matches in
winit_event_filter.rs lines 24-39 and its test at lines 75-86, and by the
spec data model in section 3). The `wait` duration is in nanoseconds. -/
inductive UpdateMode where
  | continuous
  | reactive (wait : Nat) (react_to_window_events react_to_device_events
      react_to_user_events : Bool)
deriving DecidableEq, Repr

/-- Start causes of a `NewEvents` notification (winit `StartCause`); only
the presence of `requested_resume` matters to state.rs, and lib.rs also
compares the requested resume instant with the current time. -/
inductive StartCause where
  | init
  | poll
  | waitCancelled (requestedResume : Option Nat)
  | resumeTimeReached (requestedResume : Nat)
deriving DecidableEq, Repr

/-- Categories of winit events as dispatched by `handle_winit_event`
(state.rs lines 274-670) and by the filter's category gate
(winit_event_filter.rs lines 24-39). `other` stands for the events that
fall into the final wildcard arms (for example `LoopExiting`). -/
inductive WinitEvent where
  | newEvents (cause : StartCause)
  | windowEvent
  | deviceEvent
  | userEvent
  | suspended
  | resumed
  | aboutToWait
  | other
deriving DecidableEq, Repr

/-- winit_event_filter.rs lines 7-9: the filter is an optional predicate
over the raw event and the current update mode. -/
structure WinitEventFilter where
  filter : Option (WinitEvent → UpdateMode → Bool)

/-- winit_event_filter.rs lines 11-15: the default filter has no
predicate installed. -/
def winitEventFilterDefault : WinitEventFilter := ⟨none⟩

/-- Category gate computed at winit_event_filter.rs lines 25-39: under
`Continuous` every event can react; under `Reactive` only the
device/user/window categories can, each gated by its flag, and every
other event kind falls into the wildcard arm returning false. -/
def canReact (event : WinitEvent) (update_mode : UpdateMode) : Bool :=
  match update_mode with
  | .continuous => true
  | .reactive _ react_to_window_events react_to_device_events react_to_user_events =>
    match event with
    | .deviceEvent => react_to_device_events
    | .userEvent => react_to_user_events
    | .windowEvent => react_to_window_events
    | _ => false

/-- winit_event_filter.rs lines 24-50: `handle` returns false when the
category gate is closed; otherwise it returns true when no predicate is
installed, and the predicate's verdict when one is. -/
def WinitEventFilter.handle (f : WinitEventFilter) (event : WinitEvent)
    (update_mode : UpdateMode) : Bool :=
  if !canReact event update_mode then false
  else
    match f.filter with
    | none => true
    | some p => p event update_mode

/-- Runner state of the filter-based revision (state.rs lines 57-74). -/
structure WinitAppRunnerState where
  /-- Current activity state of the app. -/
  activity_state : UpdateState
  /-- Current update mode of the app. -/
  update_mode : UpdateMode
  /-- Filter to handle events. -/
  event_filter : WinitEventFilter
  /-- Number of forced updates to trigger on application start. -/
  startup_forced_updates : Nat
  /-- True if the app has requested a redraw since the last update. -/
  redraw_requested : Bool
  /-- True if enough time has elapsed since the last update. -/
  wait_elapsed : Bool
  /-- True if a filtered event has been received since the last update. -/
  event_received : Bool

/-- state.rs lines 90-103: the `Default` impl of `WinitAppRunnerState`. -/
def winitAppRunnerStateDefault : WinitAppRunnerState where
  activity_state := .notYetStarted
  update_mode := .continuous
  redraw_requested := false
  wait_elapsed := false
  startup_forced_updates := 5
  event_filter := winitEventFilterDefault
  event_received := false

/-- state.rs lines 77-79: the body of `reset_on_update` is the bare path
statement `self.event_received;`, which reads the field and discards the
value without writing anything, so the function is the identity on the
runner state. -/
def WinitAppRunnerState.reset_on_update (s : WinitAppRunnerState) :
    WinitAppRunnerState := s

/-- state.rs lines 81-83: the idle-point decision. -/
def WinitAppRunnerState.should_update (s : WinitAppRunnerState) : Bool :=
  (s.wait_elapsed || s.event_received) && s.activity_state.is_active

/-- state.rs lines 85-88: OR the filter's verdict on this event into the
accumulated `event_received` wake flag. -/
def WinitAppRunnerState.handle_event (s : WinitAppRunnerState)
    (event : WinitEvent) (update_mode : UpdateMode) : WinitAppRunnerState :=
  { s with event_received := s.event_received || s.event_filter.handle event update_mode }

/-- Largest representable instant, in nanoseconds; `Instant::checked_add`
overflows past this bound. The concrete value is irrelevant to the
theorems, which quantify over the outcome of `checkedAdd`. -/
def instantMax : Nat := 2 ^ 64 - 1

/-- Model of `Instant::checked_add(Duration) -> Option<Instant>`
(used at state.rs line 445): `none` exactly when the sum overflows. -/
def checkedAdd (t wait : Nat) : Option Nat :=
  if t + wait ≤ instantMax then some (t + wait) else none

/-- Control-flow values the runner can hand to the event loop
(state.rs lines 427-447). -/
inductive ControlFlow where
  | wait
  | poll
  | waitUntil (t : Nat)
deriving DecidableEq, Repr

/-- Values the runner reads from the app world while handling one event.

* `plugins`: the plugin readiness phase at entry to `handle_winit_event`.
* `modeBefore`: `config.update_mode(focused)` as extracted in the
  preamble (state.rs lines 228-230).
* `modeAfter`: the same extraction re-done after `app.update()` ran
  (state.rs lines 394-397); the update may have mutated the settings
  resource or the focus state, so this is an independent value.
* `redrawEventPending`: whether a `RequestRedraw` event is pending in the
  world (state.rs lines 276-280).
* `scaleFactorAbort`: whether the backend-scale-factor replay block
  (state.rs lines 282-316) hits one of its early `return` arms (unknown
  winit window id or missing `Window` component), which aborts the rest
  of the idle decision.
* `beginFrameTime`: the `Instant::now()` recorded at state.rs line 388,
  before `app.update()` runs.
* `windowsVisible`: whether some winit window is visible (state.rs lines
  422-425); on the platforms where visibility cannot be queried the code
  behaves as if this were true (control flow `Wait`, line 434). -/
structure WorldEnv where
  plugins : PluginsState
  modeBefore : UpdateMode
  modeAfter : UpdateMode
  redrawEventPending : Bool
  scaleFactorAbort : Bool
  beginFrameTime : Nat
  windowsVisible : Bool

/-- Ghost observables of one `handle_winit_event` step.

* `runInvoked`: `run_app_update` was called (state.rs line 392).
* `appTicked`: `app.update()` actually executed inside it
  (state.rs lines 683-685).
* `activityAtUpdate`: the value of `activity_state` at the moment
  `run_app_update` was invoked, `none` when it was not invoked.
* `modeUsed`: the value of the local `update_mode` variable at the
  control-flow match (state.rs line 409).
* `controlFlowSet`: the control flow handed to the event loop during
  this step, `none` when `set_control_flow` was not called.
* `redrawsFlushed`: the redraw flush at state.rs lines 453-461 fired. -/
structure StepOutput where
  runInvoked : Bool
  appTicked : Bool
  activityAtUpdate : Option UpdateState
  modeUsed : Option UpdateMode
  controlFlowSet : Option ControlFlow
  redrawsFlushed : Bool

/-- Output of a step that never reaches the idle-decision tail. -/
def StepOutput.quiet : StepOutput :=
  ⟨false, false, none, none, none, false⟩

/-- state.rs lines 680-686: `run_app_update` calls the (no-op)
`reset_on_update` and then runs `app.update()` exactly when the plugin
phase is `Cleaned`. Returns the new runner state and whether the app
ticked. -/
def run_app_update (plugins : PluginsState) (s : WinitAppRunnerState) :
    WinitAppRunnerState × Bool :=
  let s := s.reset_on_update
  (s, decide (plugins = .cleaned))

/-- Outcome of the forced-override block of the idle decision:
the runner state together with the local `should_update` flag. -/
structure IdleDecision where
  s : WinitAppRunnerState
  should_update : Bool

/-- state.rs lines 318-347: compute `should_update`, then apply the three
forced overrides in source order: the startup forced-update counter
(lines 320-324), the `WillSuspend -> Suspended` edge (lines 326-339) and
the `WillResume -> Active` edge (lines 341-347, which also raises
`redraw_requested`). -/
def idleForcedDecision (s : WinitAppRunnerState) : IdleDecision :=
  let d0 : IdleDecision := ⟨s, s.should_update⟩
  let d1 : IdleDecision :=
    if 0 < d0.s.startup_forced_updates then
      ⟨{ d0.s with startup_forced_updates := d0.s.startup_forced_updates - 1 }, true⟩
    else d0
  let d2 : IdleDecision :=
    if d1.s.activity_state = .willSuspend then
      ⟨{ d1.s with activity_state := .suspended }, true⟩
    else d1
  if d2.s.activity_state = .willResume then
    ⟨{ d2.s with activity_state := .active, redraw_requested := true }, true⟩
  else d2

/-- state.rs lines 443-450: the `Reactive { wait, .. }` arm of the
control-flow match arms `WaitUntil(begin_frame_time + wait)` only when
the checked addition does not overflow and `wait_elapsed` is true. -/
def reactiveControlFlow (beginFrameTime wait : Nat) (waitElapsed : Bool) :
    Option ControlFlow :=
  match checkedAdd beginFrameTime wait with
  | some next => if waitElapsed then some (.waitUntil next) else none
  | none => none

/-- state.rs lines 409-451: the control-flow match on the local
`update_mode`. Under `Continuous` the desktop path picks `Wait` when a
window is visible and `Poll` otherwise (the other platforms always pick
`Wait`, modelled by `windowsVisible = true`). -/
def controlFlowFor (env : WorldEnv) (update_mode : UpdateMode)
    (waitElapsed : Bool) : Option ControlFlow :=
  match update_mode with
  | .continuous => some (if env.windowsVisible then .wait else .poll)
  | .reactive wait _ _ _ => reactiveControlFlow env.beginFrameTime wait waitElapsed

/-- state.rs lines 386-461: the tail of the idle decision after the
forced overrides: run the update when `should_update` holds and
re-extract the update mode (lines 390-398), observe a policy change
(lines 400-407), set the control flow (lines 409-451, including the
redraw raised when the continuous arm settles on `Wait`, lines 438-441),
and flush pending redraws unless suspended (lines 453-461). -/
def idleTail (env : WorldEnv) (pluginsEff : PluginsState) (d : IdleDecision) :
    WinitAppRunnerState × StepOutput :=
  let activityAt : Option UpdateState :=
    if d.should_update then some d.s.activity_state else none
  let su : WinitAppRunnerState × Bool :=
    if d.should_update then run_app_update pluginsEff d.s else (d.s, false)
  let s1 := su.1
  let update_mode := if d.should_update then env.modeAfter else env.modeBefore
  let s2 :=
    if update_mode = s1.update_mode then s1
    else { s1 with redraw_requested := true, wait_elapsed := true,
                   update_mode := update_mode }
  let cf := controlFlowFor env update_mode s2.wait_elapsed
  let s3 := if cf = some .wait then { s2 with redraw_requested := true } else s2
  let flush : WinitAppRunnerState × Bool :=
    if s3.redraw_requested && decide (s3.activity_state ≠ .suspended) then
      ({ s3 with redraw_requested := false }, true)
    else (s3, false)
  (flush.1,
   { runInvoked := d.should_update, appTicked := su.2,
     activityAtUpdate := activityAt, modeUsed := some update_mode,
     controlFlowSet := cf, redrawsFlushed := flush.2 })

/-- state.rs lines 276-280: latch any `RequestRedraw` event pending in
the world into `redraw_requested`. -/
def latchRedraw (env : WorldEnv) (s0 : WinitAppRunnerState) :
    WinitAppRunnerState :=
  if env.redrawEventPending then { s0 with redraw_requested := true } else s0

/-- state.rs lines 275-461: the `AboutToWait` arm. Latch any pending
redraw request (lines 276-280); the scale-factor replay block may abort
the rest of the idle decision through its early returns (lines 282-316);
otherwise run the forced-override decision and the idle tail. -/
def aboutToWaitStep (env : WorldEnv) (pluginsEff : PluginsState)
    (s0 : WinitAppRunnerState) : WinitAppRunnerState × StepOutput :=
  let s := latchRedraw env s0
  if env.scaleFactorAbort then (s, StepOutput.quiet)
  else idleTail env pluginsEff (idleForcedDecision s)

/-- Preamble of `handle_winit_event` (state.rs lines 212-232): raise
`redraw_requested` while the plugins are not yet cleaned, then feed the
event through the filter with the freshly extracted update mode, ORing
the verdict into `event_received`. -/
def preambleState (env : WorldEnv) (s : WinitAppRunnerState)
    (event : WinitEvent) : WinitAppRunnerState :=
  let s := if env.plugins = .cleaned then s else { s with redraw_requested := true }
  s.handle_event event env.modeBefore

/-- Effective plugin phase for the rest of the handler: a `Ready` app is
finished and cleaned by the preamble (state.rs lines 216-219). -/
def pluginsEffective (plugins : PluginsState) : PluginsState :=
  if plugins = .ready then .cleaned else plugins

/-- state.rs lines 190-678: one invocation of `handle_winit_event`,
restricted to its effect on the runner state and its world-visible
decisions. After the preamble, the dispatch handles the event:
`AboutToWait` runs the idle decision, `NewEvents` sets `wait_elapsed`
from the start cause (lines 463-471), `Suspended` and `Resumed` move the
lifecycle edges (lines 653-665), and the remaining arms (window, device
and user events, plus the wildcard) do not touch the runner state. -/
def handle_winit_event (env : WorldEnv) (s : WinitAppRunnerState)
    (event : WinitEvent) : WinitAppRunnerState × StepOutput :=
  let pluginsEff : PluginsState := pluginsEffective env.plugins
  let s := preambleState env s event
  match event with
  | .aboutToWait => aboutToWaitStep env pluginsEff s
  | .newEvents cause =>
      ({ s with wait_elapsed :=
          match cause with
          | .waitCancelled (some _) => false
          | _ => true },
       StepOutput.quiet)
  | .suspended => ({ s with activity_state := .willSuspend }, StepOutput.quiet)
  | .resumed => ({ s with activity_state := .willResume }, StepOutput.quiet)
  | _ => (s, StepOutput.quiet)

namespace LibRs

/-- Lifecycle states of the runner in `lib.rs` (enum `ActiveState`,
lib.rs lines 213-220). -/
inductive ActiveState where
  | notYetStarted
  | active
  | suspended
  | willSuspend
  | willResume
deriving DecidableEq, Repr

/-- lib.rs lines 222-230: `should_run` is true for
`Active | WillSuspend | WillResume`. -/
def ActiveState.should_run (s : ActiveState) : Bool :=
  match s with
  | .notYetStarted | .suspended => false
  | .active | .willSuspend | .willResume => true

/-- Runner state of the flag-based revision (lib.rs lines 171-188). -/
structure WinitAppRunnerState where
  active : ActiveState
  update_mode : UpdateMode
  window_event_received : Bool
  device_event_received : Bool
  redraw_requested : Bool
  wait_elapsed : Bool
  startup_forced_updates : Nat
deriving DecidableEq, Repr

/-- lib.rs lines 190-196: `reset_on_update` clears `redraw_requested`,
`window_event_received` and `device_event_received`. -/
def WinitAppRunnerState.reset_on_update (s : WinitAppRunnerState) :
    WinitAppRunnerState :=
  { s with redraw_requested := false, window_event_received := false,
           device_event_received := false }

/-- lib.rs lines 804-814: reset the per-update flags, return early when
the active state should not run, and otherwise run `app.update()` exactly
when the plugin phase is `Cleaned`. Returns the new runner state and
whether the app ticked. -/
def run_app_update_if_should (plugins : PluginsState)
    (s : WinitAppRunnerState) : WinitAppRunnerState × Bool :=
  let s := s.reset_on_update
  if !s.active.should_run then (s, false)
  else (s, decide (plugins = .cleaned))

/-- lib.rs lines 554-561: on `NewEvents`, `wait_elapsed` is set from the
start cause; a `WaitCancelled` carrying a requested resume instant counts
as elapsed exactly when that instant is not later than the current time,
and every other cause counts as elapsed. -/
def waitElapsedOnNewEvents (now : Nat) (cause : StartCause) : Bool :=
  match cause with
  | .waitCancelled (some resume) => resume ≤ now
  | _ => true

end LibRs

/-! ### Sample inputs used by witnesses and counterexamples -/

/-- A reactive mode with every reactivity flag enabled. -/
def sampleReactiveMode : UpdateMode := .reactive 1000 true true true

/-- A reactive mode with every reactivity flag disabled. -/
def sampleQuietMode : UpdateMode := .reactive 1000 false false false

/-- A benign environment: plugins cleaned, reactive mode with all flags,
no pending redraws, no scale-factor abort. -/
def sampleEnv : WorldEnv where
  plugins := .cleaned
  modeBefore := sampleReactiveMode
  modeAfter := sampleReactiveMode
  redrawEventPending := false
  scaleFactorAbort := false
  beginFrameTime := 100
  windowsVisible := true

/-- A settled runner: active, reactive mode cached, startup counter
exhausted, all flags down, no filter predicate installed. -/
def sampleIdleRunner : WinitAppRunnerState where
  activity_state := .active
  update_mode := sampleReactiveMode
  event_filter := winitEventFilterDefault
  startup_forced_updates := 0
  redraw_requested := false
  wait_elapsed := false
  event_received := false

/-! ### Helper lemmas -/

theorem canReact_continuous (e : WinitEvent) : canReact e .continuous = true := rfl

theorem handle_aboutToWait_reactive (f : WinitEventFilter) (w : Nat) (a b c : Bool) :
    f.handle .aboutToWait (.reactive w a b c) = false := rfl

theorem preambleState_activity_state (env : WorldEnv) (s : WinitAppRunnerState)
    (e : WinitEvent) : (preambleState env s e).activity_state = s.activity_state := by
  unfold preambleState WinitAppRunnerState.handle_event
  by_cases h : env.plugins = PluginsState.cleaned <;> simp [h]

theorem preambleState_wait_elapsed (env : WorldEnv) (s : WinitAppRunnerState)
    (e : WinitEvent) : (preambleState env s e).wait_elapsed = s.wait_elapsed := by
  unfold preambleState WinitAppRunnerState.handle_event
  by_cases h : env.plugins = PluginsState.cleaned <;> simp [h]

theorem preambleState_startup (env : WorldEnv) (s : WinitAppRunnerState)
    (e : WinitEvent) :
    (preambleState env s e).startup_forced_updates = s.startup_forced_updates := by
  unfold preambleState WinitAppRunnerState.handle_event
  by_cases h : env.plugins = PluginsState.cleaned <;> simp [h]

theorem preambleState_update_mode (env : WorldEnv) (s : WinitAppRunnerState)
    (e : WinitEvent) : (preambleState env s e).update_mode = s.update_mode := by
  unfold preambleState WinitAppRunnerState.handle_event
  by_cases h : env.plugins = PluginsState.cleaned <;> simp [h]

theorem preambleState_event_received (env : WorldEnv) (s : WinitAppRunnerState)
    (e : WinitEvent) :
    (preambleState env s e).event_received
      = (s.event_received || s.event_filter.handle e env.modeBefore) := by
  unfold preambleState WinitAppRunnerState.handle_event
  by_cases h : env.plugins = PluginsState.cleaned <;> simp [h]

theorem ifd_no_force (s : WinitAppRunnerState)
    (h0 : s.startup_forced_updates = 0)
    (h1 : s.activity_state ≠ .willSuspend)
    (h2 : s.activity_state ≠ .willResume) :
    idleForcedDecision s = ⟨s, s.should_update⟩ := by
  unfold idleForcedDecision
  simp [h0, h1, h2]

theorem ifd_counter_pos (s : WinitAppRunnerState)
    (h : 0 < s.startup_forced_updates) :
    (idleForcedDecision s).should_update = true ∧
    (idleForcedDecision s).s.startup_forced_updates
      = s.startup_forced_updates - 1 := by
  unfold idleForcedDecision
  cases hact : s.activity_state <;> simp [h, hact]

theorem ifd_willSuspend (s : WinitAppRunnerState)
    (h : s.activity_state = .willSuspend) :
    (idleForcedDecision s).s.activity_state = .suspended ∧
    (idleForcedDecision s).should_update = true := by
  unfold idleForcedDecision
  by_cases hc : 0 < s.startup_forced_updates <;> simp [h, hc]

theorem ifd_willResume (s : WinitAppRunnerState)
    (h : s.activity_state = .willResume) :
    (idleForcedDecision s).s.activity_state = .active ∧
    (idleForcedDecision s).should_update = true ∧
    (idleForcedDecision s).s.redraw_requested = true := by
  unfold idleForcedDecision
  by_cases hc : 0 < s.startup_forced_updates <;> simp [h, hc]

theorem ifd_suspended_no_counter (s : WinitAppRunnerState)
    (h : s.activity_state = .suspended)
    (h0 : s.startup_forced_updates = 0) :
    (idleForcedDecision s).should_update = s.should_update := by
  unfold idleForcedDecision
  simp [h, h0]

theorem idleTail_runInvoked (env : WorldEnv) (p : PluginsState)
    (d : IdleDecision) : (idleTail env p d).2.runInvoked = d.should_update := rfl

theorem idleTail_modeUsed (env : WorldEnv) (p : PluginsState)
    (d : IdleDecision) :
    (idleTail env p d).2.modeUsed
      = some (if d.should_update then env.modeAfter else env.modeBefore) := rfl

theorem idleTail_activityAtUpdate (env : WorldEnv) (p : PluginsState)
    (d : IdleDecision) :
    (idleTail env p d).2.activityAtUpdate
      = (if d.should_update then some d.s.activity_state else none) := rfl

theorem idleTail_appTicked (env : WorldEnv) (p : PluginsState)
    (d : IdleDecision) :
    (idleTail env p d).2.appTicked
      = (d.should_update && decide (p = PluginsState.cleaned)) := by
  unfold idleTail
  by_cases h : d.should_update <;>
    simp [h, run_app_update, WinitAppRunnerState.reset_on_update]

theorem idleTail_state_activity (env : WorldEnv) (p : PluginsState)
    (d : IdleDecision) :
    (idleTail env p d).1.activity_state = d.s.activity_state := by
  unfold idleTail run_app_update WinitAppRunnerState.reset_on_update
  by_cases h1 : d.should_update <;> simp [h1] <;>
    (repeat' split) <;> simp_all

theorem idleTail_state_counter (env : WorldEnv) (p : PluginsState)
    (d : IdleDecision) :
    (idleTail env p d).1.startup_forced_updates
      = d.s.startup_forced_updates := by
  unfold idleTail run_app_update WinitAppRunnerState.reset_on_update
  by_cases h1 : d.should_update <;> simp [h1] <;>
    (repeat' split) <;> simp_all

theorem idleTail_state_event_received (env : WorldEnv) (p : PluginsState)
    (d : IdleDecision) :
    (idleTail env p d).1.event_received = d.s.event_received := by
  unfold idleTail run_app_update WinitAppRunnerState.reset_on_update
  by_cases h1 : d.should_update <;> simp [h1] <;>
    (repeat' split) <;> simp_all

theorem idleTail_state_update_mode (env : WorldEnv) (p : PluginsState)
    (d : IdleDecision) :
    (idleTail env p d).1.update_mode
      = (if d.should_update then env.modeAfter else env.modeBefore) := by
  unfold idleTail run_app_update WinitAppRunnerState.reset_on_update
  by_cases h1 : d.should_update <;> simp [h1] <;>
    (repeat' split) <;> simp_all

theorem idleTail_state_wait_elapsed (env : WorldEnv) (p : PluginsState)
    (d : IdleDecision) :
    (idleTail env p d).1.wait_elapsed
      = (if (if d.should_update then env.modeAfter else env.modeBefore)
            = d.s.update_mode
         then d.s.wait_elapsed else true) := by
  unfold idleTail run_app_update WinitAppRunnerState.reset_on_update
  by_cases h1 : d.should_update <;> simp [h1] <;>
    (repeat' split) <;> simp_all

theorem idleTail_controlFlowSet (env : WorldEnv) (p : PluginsState)
    (d : IdleDecision) :
    (idleTail env p d).2.controlFlowSet
      = controlFlowFor env
          (if d.should_update then env.modeAfter else env.modeBefore)
          (if (if d.should_update then env.modeAfter else env.modeBefore)
              = d.s.update_mode
           then d.s.wait_elapsed else true) := by
  unfold idleTail run_app_update WinitAppRunnerState.reset_on_update
  by_cases h1 : d.should_update <;> simp [h1] <;>
    (repeat' split) <;> simp_all

theorem idleTail_flushed_of_redraw (env : WorldEnv) (p : PluginsState)
    (d : IdleDecision) (hr : d.s.redraw_requested = true)
    (ha : d.s.activity_state ≠ .suspended) :
    (idleTail env p d).2.redrawsFlushed = true := by
  unfold idleTail run_app_update WinitAppRunnerState.reset_on_update
  by_cases h1 : d.should_update <;> simp [h1] <;>
    (repeat' split) <;> simp_all

theorem idleTail_modeChange_redraw (env : WorldEnv) (p : PluginsState)
    (d : IdleDecision)
    (hm : (if d.should_update then env.modeAfter else env.modeBefore)
            ≠ d.s.update_mode) :
    (idleTail env p d).2.redrawsFlushed = true ∨
    (idleTail env p d).1.redraw_requested = true := by
  unfold idleTail run_app_update WinitAppRunnerState.reset_on_update
  by_cases h1 : d.should_update <;> simp [h1] <;>
    (repeat' split) <;> simp_all

theorem latchRedraw_activity_state (env : WorldEnv) (s : WinitAppRunnerState) :
    (latchRedraw env s).activity_state = s.activity_state := by
  unfold latchRedraw; split <;> rfl

theorem latchRedraw_wait_elapsed (env : WorldEnv) (s : WinitAppRunnerState) :
    (latchRedraw env s).wait_elapsed = s.wait_elapsed := by
  unfold latchRedraw; split <;> rfl

theorem latchRedraw_event_received (env : WorldEnv) (s : WinitAppRunnerState) :
    (latchRedraw env s).event_received = s.event_received := by
  unfold latchRedraw; split <;> rfl

theorem latchRedraw_startup (env : WorldEnv) (s : WinitAppRunnerState) :
    (latchRedraw env s).startup_forced_updates = s.startup_forced_updates := by
  unfold latchRedraw; split <;> rfl

theorem latchRedraw_update_mode (env : WorldEnv) (s : WinitAppRunnerState) :
    (latchRedraw env s).update_mode = s.update_mode := by
  unfold latchRedraw; split <;> rfl

theorem handle_aboutToWait_eq (env : WorldEnv) (s : WinitAppRunnerState)
    (habort : env.scaleFactorAbort = false) :
    handle_winit_event env s .aboutToWait
      = idleTail env (pluginsEffective env.plugins)
          (idleForcedDecision (latchRedraw env (preambleState env s .aboutToWait))) := by
  unfold handle_winit_event aboutToWaitStep
  simp [habort]

theorem handle_aboutToWait_abort (env : WorldEnv) (s : WinitAppRunnerState)
    (habort : env.scaleFactorAbort = true) :
    (handle_winit_event env s .aboutToWait).2 = StepOutput.quiet := by
  unfold handle_winit_event aboutToWaitStep
  simp [habort]

/-! ### Claim theorems -/

/-- Claim C1: the idle-point decision `should_update` returns true if and
only if (`wait_elapsed` or the accumulated wake flag `event_received`)
holds together with `is_active()`; and under any `UpdateMode::Reactive`
configuration, when `wait_elapsed` is false, no wake flag is set, the
startup forced-update counter is zero and the activity state is not on a
WillSuspend/WillResume edge, the idle decision invokes no frame
update. -/
theorem claim1_reactive_idle_runs_no_update :
    (∀ s : WinitAppRunnerState,
        s.should_update = true ↔
          ((s.wait_elapsed = true ∨ s.event_received = true) ∧
            s.activity_state.is_active = true)) ∧
    (∀ (env : WorldEnv) (s : WinitAppRunnerState) (wait : Nat) (a b c : Bool),
        env.modeBefore = .reactive wait a b c →
        s.wait_elapsed = false → s.event_received = false →
        s.startup_forced_updates = 0 →
        s.activity_state ≠ .willSuspend →
        s.activity_state ≠ .willResume →
        (handle_winit_event env s .aboutToWait).2.runInvoked = false ∧
        (handle_winit_event env s .aboutToWait).2.appTicked = false) := by
  constructor
  · intro s
    simp [WinitAppRunnerState.should_update, Bool.and_eq_true, Bool.or_eq_true]
  · intro env s wait a b c hmode hwe her hcnt hsus hres
    by_cases habort : env.scaleFactorAbort
    · rw [handle_aboutToWait_abort env s habort]
      exact ⟨rfl, rfl⟩
    · simp only [Bool.not_eq_true] at habort
      rw [handle_aboutToWait_eq env s habort]
      have ht0 : (latchRedraw env (preambleState env s .aboutToWait)).startup_forced_updates = 0 := by
        rw [latchRedraw_startup, preambleState_startup, hcnt]
      have ht1 : (latchRedraw env (preambleState env s .aboutToWait)).activity_state
          = s.activity_state := by
        rw [latchRedraw_activity_state, preambleState_activity_state]
      have htwe : (latchRedraw env (preambleState env s .aboutToWait)).wait_elapsed = false := by
        rw [latchRedraw_wait_elapsed, preambleState_wait_elapsed, hwe]
      have hter : (latchRedraw env (preambleState env s .aboutToWait)).event_received = false := by
        rw [latchRedraw_event_received, preambleState_event_received, her, hmode]
        simp [handle_aboutToWait_reactive]
      have hd := ifd_no_force _ ht0 (ht1 ▸ hsus) (ht1 ▸ hres)
      rw [idleTail_runInvoked, idleTail_appTicked, hd]
      constructor
      · simp [WinitAppRunnerState.should_update, htwe, hter]
      · simp [WinitAppRunnerState.should_update, htwe, hter]

/-- Witness for C1 at a concrete settled runner under the sample reactive
environment. -/
theorem claim1_witness :
    (sampleIdleRunner.should_update = true ↔
        ((sampleIdleRunner.wait_elapsed = true ∨
            sampleIdleRunner.event_received = true) ∧
          sampleIdleRunner.activity_state.is_active = true)) ∧
    ((handle_winit_event sampleEnv sampleIdleRunner .aboutToWait).2.runInvoked = false ∧
      (handle_winit_event sampleEnv sampleIdleRunner .aboutToWait).2.appTicked = false) :=
  ⟨claim1_reactive_idle_runs_no_update.1 sampleIdleRunner,
   claim1_reactive_idle_runs_no_update.2 sampleEnv sampleIdleRunner 1000 true true true
     rfl rfl rfl rfl (by decide) (by decide)⟩

theorem ifd_update_mode (s : WinitAppRunnerState) :
    (idleForcedDecision s).s.update_mode = s.update_mode := by
  unfold idleForcedDecision
  by_cases hc : 0 < s.startup_forced_updates <;>
    cases hact : s.activity_state <;> simp [hc, hact]

/-- Claim C4: the runner starts with `startup_forced_updates = 5`; an
idle decision reached with a positive counter decrements it and forces
the update path regardless of policy, flags or `wait_elapsed`; and an
idle decision reached with a zero counter (and no suspend/resume edge)
invokes the update path exactly when the policy decision
`should_update` of the post-preamble state says so. -/
theorem claim4_startup_forced_counter :
    winitAppRunnerStateDefault.startup_forced_updates = 5 ∧
    (∀ (env : WorldEnv) (s : WinitAppRunnerState) (n : Nat),
        env.scaleFactorAbort = false →
        s.startup_forced_updates = n + 1 →
        (handle_winit_event env s .aboutToWait).2.runInvoked = true ∧
        (handle_winit_event env s .aboutToWait).1.startup_forced_updates = n) ∧
    (∀ (env : WorldEnv) (s : WinitAppRunnerState),
        env.scaleFactorAbort = false →
        s.startup_forced_updates = 0 →
        s.activity_state ≠ .willSuspend →
        s.activity_state ≠ .willResume →
        (handle_winit_event env s .aboutToWait).2.runInvoked
          = ((s.wait_elapsed
                || (s.event_received
                      || s.event_filter.handle .aboutToWait env.modeBefore))
              && s.activity_state.is_active)) := by
  refine ⟨rfl, ?_, ?_⟩
  · intro env s n habort hcnt
    rw [handle_aboutToWait_eq env s habort, idleTail_runInvoked,
      idleTail_state_counter]
    have ht : (latchRedraw env (preambleState env s .aboutToWait)).startup_forced_updates
        = n + 1 := by
      rw [latchRedraw_startup, preambleState_startup, hcnt]
    have h := ifd_counter_pos _ (by rw [ht]; exact Nat.succ_pos n)
    rw [h.1, h.2, ht]
    exact ⟨rfl, rfl⟩
  · intro env s habort hcnt hsus hres
    rw [handle_aboutToWait_eq env s habort, idleTail_runInvoked]
    have ht0 : (latchRedraw env (preambleState env s .aboutToWait)).startup_forced_updates
        = 0 := by
      rw [latchRedraw_startup, preambleState_startup, hcnt]
    have ht1 : (latchRedraw env (preambleState env s .aboutToWait)).activity_state
        = s.activity_state := by
      rw [latchRedraw_activity_state, preambleState_activity_state]
    rw [ifd_no_force _ ht0 (ht1 ▸ hsus) (ht1 ▸ hres)]
    show (latchRedraw env (preambleState env s .aboutToWait)).should_update = _
    unfold WinitAppRunnerState.should_update
    rw [latchRedraw_wait_elapsed, preambleState_wait_elapsed,
      latchRedraw_event_received, preambleState_event_received, ht1]

/-- A runner three forced startup updates away from policy control. -/
def sampleStartupRunner : WinitAppRunnerState :=
  { sampleIdleRunner with startup_forced_updates := 3 }

/-- Witness for C4: with counter three the idle decision forces the
update and leaves counter two; with counter zero the settled sample
runner runs no update. -/
theorem claim4_witness :
    ((handle_winit_event sampleEnv sampleStartupRunner .aboutToWait).2.runInvoked = true ∧
      (handle_winit_event sampleEnv sampleStartupRunner .aboutToWait).1.startup_forced_updates = 2) ∧
    (handle_winit_event sampleEnv sampleIdleRunner .aboutToWait).2.runInvoked
      = ((sampleIdleRunner.wait_elapsed
            || (sampleIdleRunner.event_received
                  || sampleIdleRunner.event_filter.handle .aboutToWait sampleEnv.modeBefore))
          && sampleIdleRunner.activity_state.is_active) :=
  ⟨claim4_startup_forced_counter.2.1 sampleEnv sampleStartupRunner 2 rfl rfl,
   claim4_startup_forced_counter.2.2 sampleEnv sampleIdleRunner rfl rfl
     (by decide) (by decide)⟩

/-- Claim C5: at an idle decision, a `WillSuspend` activity state is
unconditionally moved to `Suspended` and the update path is forced for
that iteration; a `WillResume` activity state is unconditionally moved
to `Active`, the update path is forced, and `redraw_requested` is raised
(observable as the redraw flush firing in that same iteration, which is
what consumes the raised flag); and once `Suspended` with the startup
counter exhausted, idle decisions invoke no further update. -/
theorem claim5_suspend_resume_edges :
    (∀ (env : WorldEnv) (s : WinitAppRunnerState),
        env.scaleFactorAbort = false →
        s.activity_state = .willSuspend →
        (handle_winit_event env s .aboutToWait).1.activity_state = .suspended ∧
        (handle_winit_event env s .aboutToWait).2.runInvoked = true) ∧
    (∀ (env : WorldEnv) (s : WinitAppRunnerState),
        env.scaleFactorAbort = false →
        s.activity_state = .willResume →
        (handle_winit_event env s .aboutToWait).1.activity_state = .active ∧
        (handle_winit_event env s .aboutToWait).2.runInvoked = true ∧
        (handle_winit_event env s .aboutToWait).2.redrawsFlushed = true) ∧
    (∀ (env : WorldEnv) (s : WinitAppRunnerState),
        env.scaleFactorAbort = false →
        s.activity_state = .suspended →
        s.startup_forced_updates = 0 →
        (handle_winit_event env s .aboutToWait).2.runInvoked = false) := by
  refine ⟨?_, ?_, ?_⟩
  · intro env s habort hact
    rw [handle_aboutToWait_eq env s habort, idleTail_state_activity,
      idleTail_runInvoked]
    have ht : (latchRedraw env (preambleState env s .aboutToWait)).activity_state
        = .willSuspend := by
      rw [latchRedraw_activity_state, preambleState_activity_state, hact]
    have h := ifd_willSuspend _ ht
    exact ⟨h.1, h.2⟩
  · intro env s habort hact
    rw [handle_aboutToWait_eq env s habort, idleTail_state_activity,
      idleTail_runInvoked]
    have ht : (latchRedraw env (preambleState env s .aboutToWait)).activity_state
        = .willResume := by
      rw [latchRedraw_activity_state, preambleState_activity_state, hact]
    have h := ifd_willResume _ ht
    refine ⟨h.1, h.2.1, ?_⟩
    exact idleTail_flushed_of_redraw env _ _ h.2.2 (by rw [h.1]; decide)
  · intro env s habort hact hcnt
    rw [handle_aboutToWait_eq env s habort, idleTail_runInvoked]
    have ht : (latchRedraw env (preambleState env s .aboutToWait)).activity_state
        = .suspended := by
      rw [latchRedraw_activity_state, preambleState_activity_state, hact]
    have ht0 : (latchRedraw env (preambleState env s .aboutToWait)).startup_forced_updates
        = 0 := by
      rw [latchRedraw_startup, preambleState_startup, hcnt]
    rw [ifd_suspended_no_counter _ ht ht0]
    unfold WinitAppRunnerState.should_update
    rw [ht]
    simp [UpdateState.is_active]

/-- A runner about to enter the suspended state. -/
def sampleWillSuspendRunner : WinitAppRunnerState :=
  { sampleIdleRunner with activity_state := .willSuspend }

/-- A runner about to re-enter the active state. -/
def sampleWillResumeRunner : WinitAppRunnerState :=
  { sampleIdleRunner with activity_state := .willResume }

/-- A suspended runner with the startup counter exhausted. -/
def sampleSuspendedRunner : WinitAppRunnerState :=
  { sampleIdleRunner with activity_state := .suspended }

/-- Witness for C5 at the three concrete edge states. -/
theorem claim5_witness :
    ((handle_winit_event sampleEnv sampleWillSuspendRunner .aboutToWait).1.activity_state
        = .suspended ∧
      (handle_winit_event sampleEnv sampleWillSuspendRunner .aboutToWait).2.runInvoked = true) ∧
    ((handle_winit_event sampleEnv sampleWillResumeRunner .aboutToWait).1.activity_state
        = .active ∧
      (handle_winit_event sampleEnv sampleWillResumeRunner .aboutToWait).2.runInvoked = true ∧
      (handle_winit_event sampleEnv sampleWillResumeRunner .aboutToWait).2.redrawsFlushed = true) ∧
    (handle_winit_event sampleEnv sampleSuspendedRunner .aboutToWait).2.runInvoked = false :=
  ⟨claim5_suspend_resume_edges.1 sampleEnv sampleWillSuspendRunner rfl rfl,
   claim5_suspend_resume_edges.2.1 sampleEnv sampleWillResumeRunner rfl rfl,
   claim5_suspend_resume_edges.2.2 sampleEnv sampleSuspendedRunner rfl rfl rfl⟩

/-- Claim C6: whenever the frame update runs at an idle decision and the
re-extracted update mode differs from the cached `update_mode`, the
runner caches the new mode, treats the wait timer as elapsed, and raises
`redraw_requested` (observable within that same iteration either as the
redraw flush firing or as the flag still set at the end of the step). -/
theorem claim6_policy_change_observed :
    ∀ (env : WorldEnv) (s : WinitAppRunnerState),
      env.scaleFactorAbort = false →
      (handle_winit_event env s .aboutToWait).2.runInvoked = true →
      env.modeAfter ≠ s.update_mode →
      (handle_winit_event env s .aboutToWait).1.update_mode = env.modeAfter ∧
      (handle_winit_event env s .aboutToWait).1.wait_elapsed = true ∧
      ((handle_winit_event env s .aboutToWait).2.redrawsFlushed = true ∨
        (handle_winit_event env s .aboutToWait).1.redraw_requested = true) := by
  intro env s habort hrun hmode
  rw [handle_aboutToWait_eq env s habort] at hrun ⊢
  rw [idleTail_runInvoked] at hrun
  have hcached :
      (idleForcedDecision (latchRedraw env (preambleState env s .aboutToWait))).s.update_mode
        = s.update_mode := by
    rw [ifd_update_mode, latchRedraw_update_mode, preambleState_update_mode]
  refine ⟨?_, ?_, ?_⟩
  · rw [idleTail_state_update_mode, hrun]
    rfl
  · rw [idleTail_state_wait_elapsed, hrun]
    simp only [if_true]
    rw [hcached]
    simp [hmode]
  · exact idleTail_modeChange_redraw env _ _ (by rw [hrun, hcached]; simpa using hmode)

/-- An environment whose post-update mode extraction differs from the
cached mode of the sample runner (the update mutated the settings or the
focus changed). -/
def sampleModeChangeEnv : WorldEnv :=
  { sampleEnv with modeAfter := .continuous }

/-- A runner that will run an update at the next idle decision because
its wait timer has elapsed. -/
def sampleElapsedRunner : WinitAppRunnerState :=
  { sampleIdleRunner with wait_elapsed := true }

/-- Witness for C6: a mode change observed after an update forced by an
elapsed wait timer. -/
theorem claim6_witness :
    (handle_winit_event sampleModeChangeEnv sampleElapsedRunner .aboutToWait).1.update_mode
        = sampleModeChangeEnv.modeAfter ∧
    (handle_winit_event sampleModeChangeEnv sampleElapsedRunner .aboutToWait).1.wait_elapsed
        = true ∧
    ((handle_winit_event sampleModeChangeEnv sampleElapsedRunner .aboutToWait).2.redrawsFlushed
        = true ∨
      (handle_winit_event sampleModeChangeEnv sampleElapsedRunner .aboutToWait).1.redraw_requested
        = true) :=
  claim6_policy_change_observed sampleModeChangeEnv sampleElapsedRunner rfl rfl
    (by decide)

/-- Claim C8: at an idle decision whose control-flow match sees a
`Reactive` mode with interval `wait`, a `WaitUntil` deadline is armed
exactly when `checked_add` of the instant recorded before the update ran
and `wait` succeeds and `wait_elapsed` is currently true; the armed
deadline is that sum; and on overflow no control flow is set at all. -/
theorem claim8_wait_deadline_arming :
    ∀ (env : WorldEnv) (s : WinitAppRunnerState) (wait : Nat) (a b c : Bool),
      env.scaleFactorAbort = false →
      (handle_winit_event env s .aboutToWait).2.modeUsed
          = some (.reactive wait a b c) →
      (∀ n : Nat,
          (handle_winit_event env s .aboutToWait).2.controlFlowSet
              = some (.waitUntil n) ↔
            (checkedAdd env.beginFrameTime wait = some n ∧
              (handle_winit_event env s .aboutToWait).1.wait_elapsed = true)) ∧
      (checkedAdd env.beginFrameTime wait = none →
        (handle_winit_event env s .aboutToWait).2.controlFlowSet = none) ∧
      (∀ n : Nat, checkedAdd env.beginFrameTime wait = some n →
        n = env.beginFrameTime + wait) := by
  intro env s wait a b c habort hmode
  rw [handle_aboutToWait_eq env s habort] at hmode ⊢
  set d := idleForcedDecision (latchRedraw env (preambleState env s .aboutToWait)) with hd
  rw [idleTail_modeUsed] at hmode
  have hum := Option.some.inj hmode
  rw [idleTail_controlFlowSet, idleTail_state_wait_elapsed, hum]
  unfold controlFlowFor reactiveControlFlow
  refine ⟨?_, ?_, ?_⟩
  · intro n
    cases hca : checkedAdd env.beginFrameTime wait with
    | some m =>
        cases hWc : (if UpdateMode.reactive wait a b c = d.s.update_mode
            then d.s.wait_elapsed else true) <;> simp [hca, hWc]
    | none => simp [hca]
  · intro hca
    simp [hca]
  · intro n hca
    unfold checkedAdd at hca
    split at hca
    · exact (Option.some.inj hca).symm
    · cases hca

/-- Witness for C8: with the sample runner whose wait timer elapsed, the
idle decision arms the deadline begin-frame-time + wait = 1100. -/
theorem claim8_witness :
    (handle_winit_event sampleEnv sampleElapsedRunner .aboutToWait).2.controlFlowSet
        = some (.waitUntil 1100) ↔
      (checkedAdd sampleEnv.beginFrameTime 1000 = some 1100 ∧
        (handle_winit_event sampleEnv sampleElapsedRunner .aboutToWait).1.wait_elapsed
          = true) :=
  (claim8_wait_deadline_arming sampleEnv sampleElapsedRunner 1000 true true true
    rfl rfl).1 1100

/-- Claim C9: a `NewEvents` notification sets `wait_elapsed` to false in
state.rs exactly for a `WaitCancelled` cause carrying a requested resume
instant, and to true for every other cause; in lib.rs the corresponding
assignment yields false whenever the carried resume instant is still in
the future, and true for every cause that is not a `WaitCancelled` with
a resume instant. -/
theorem claim9_new_events_wait_elapsed :
    (∀ (env : WorldEnv) (s : WinitAppRunnerState) (cause : StartCause),
        (handle_winit_event env s (.newEvents cause)).1.wait_elapsed
          = (match cause with
             | .waitCancelled (some _) => false
             | _ => true)) ∧
    (∀ (now resume : Nat), now < resume →
        LibRs.waitElapsedOnNewEvents now (.waitCancelled (some resume)) = false) ∧
    (∀ (now : Nat) (cause : StartCause),
        (∀ resume, cause ≠ .waitCancelled (some resume)) →
        LibRs.waitElapsedOnNewEvents now cause = true) := by
  refine ⟨?_, ?_, ?_⟩
  · intro env s cause
    rfl
  · intro now resume h
    unfold LibRs.waitElapsedOnNewEvents
    simp [Nat.not_le.mpr h]
  · intro now cause h
    cases cause with
    | waitCancelled r =>
        cases r with
        | none => rfl
        | some resume => exact absurd rfl (h resume)
    | init => rfl
    | poll => rfl
    | resumeTimeReached r => rfl

/-- Witness for C9: an early wake with a pending resume instant leaves
`wait_elapsed` false in both revisions; a plain poll cause sets it
true. -/
theorem claim9_witness :
    (handle_winit_event sampleEnv sampleIdleRunner
        (.newEvents (.waitCancelled (some 7)))).1.wait_elapsed = false ∧
    LibRs.waitElapsedOnNewEvents 3 (.waitCancelled (some 7)) = false ∧
    LibRs.waitElapsedOnNewEvents 3 .poll = true :=
  ⟨claim9_new_events_wait_elapsed.1 sampleEnv sampleIdleRunner
      (.waitCancelled (some 7)),
   claim9_new_events_wait_elapsed.2.1 3 7 (by decide),
   claim9_new_events_wait_elapsed.2.2 3 .poll
     (fun resume h => StartCause.noConfusion h)⟩

/-- Claim C7: for every installed predicate (including none), the filter
returns false for a device event when the reactive mode disables device
reactivity, likewise for window and user events with their flags off,
and for every non-categorized event under any reactive mode; under
`Continuous` the category gate is open for every event; and a false
filter verdict leaves the accumulated wake flag unchanged. -/
theorem claim7_filter_category_gating :
    (∀ (f : WinitEventFilter) (wait : Nat) (a c : Bool),
        f.handle .deviceEvent (.reactive wait a false c) = false) ∧
    (∀ (f : WinitEventFilter) (wait : Nat) (b c : Bool),
        f.handle .windowEvent (.reactive wait false b c) = false) ∧
    (∀ (f : WinitEventFilter) (wait : Nat) (a b : Bool),
        f.handle .userEvent (.reactive wait a b false) = false) ∧
    (∀ (f : WinitEventFilter) (wait : Nat) (a b c : Bool) (cause : StartCause),
        f.handle (.newEvents cause) (.reactive wait a b c) = false ∧
        f.handle .aboutToWait (.reactive wait a b c) = false ∧
        f.handle .suspended (.reactive wait a b c) = false ∧
        f.handle .resumed (.reactive wait a b c) = false ∧
        f.handle .other (.reactive wait a b c) = false) ∧
    (∀ e : WinitEvent, canReact e .continuous = true) ∧
    (∀ (s : WinitAppRunnerState) (e : WinitEvent) (m : UpdateMode),
        s.event_filter.handle e m = false →
        (s.handle_event e m).event_received = s.event_received) := by
  refine ⟨fun f wait a c => rfl, fun f wait b c => rfl, fun f wait a b => rfl,
    fun f wait a b c cause => ⟨rfl, rfl, rfl, rfl, rfl⟩, fun e => rfl, ?_⟩
  intro s e m h
  unfold WinitAppRunnerState.handle_event
  simp [h]

/-- Witness for C7: the no-op filter verdict on a device event under a
fully disabled reactive mode leaves the sample runner's wake flag
unchanged. -/
theorem claim7_witness :
    winitEventFilterDefault.handle .deviceEvent sampleQuietMode = false ∧
    (sampleIdleRunner.handle_event .deviceEvent sampleQuietMode).event_received
      = sampleIdleRunner.event_received :=
  ⟨claim7_filter_category_gating.1 winitEventFilterDefault 1000 false false,
   claim7_filter_category_gating.2.2.2.2.2 sampleIdleRunner .deviceEvent
     sampleQuietMode rfl⟩

/-- Claim C10: the built-in default filter has no predicate installed,
and it returns true for every event whose category passes the
reactivity gate, resolving the spec's open question as always-wake. -/
theorem claim10_default_filter_wakes :
    winitEventFilterDefault.filter = none ∧
    (∀ (e : WinitEvent) (m : UpdateMode),
        canReact e m = true → winitEventFilterDefault.handle e m = true) := by
  refine ⟨rfl, ?_⟩
  intro e m h
  unfold WinitEventFilter.handle winitEventFilterDefault
  simp [h]

/-- Witness for C10: a window event under continuous mode wakes the
default filter. -/
theorem claim10_witness :
    winitEventFilterDefault.handle .windowEvent .continuous = true :=
  claim10_default_filter_wakes.2 .windowEvent .continuous rfl

/-- A runner whose wake flag is set and whose wait timer elapsed, so the
next idle decision runs a frame update. -/
def sampleWokenRunner : WinitAppRunnerState :=
  { sampleIdleRunner with wait_elapsed := true, event_received := true }

/-- Claim C2, divergence exhibited: in state.rs the frame-update path
does NOT clear the accumulated wake flag, because `reset_on_update` is
the no-op path statement `self.event_received;`; at a concrete idle
decision the app ticks and `event_received` is still true afterwards.
In lib.rs, by contrast, `run_app_update_if_should` does clear its
window/device wake flags through its `reset_on_update`. -/
theorem claim2_wake_flag_not_cleared :
    ((handle_winit_event sampleEnv sampleWokenRunner .aboutToWait).2.appTicked = true ∧
      (handle_winit_event sampleEnv sampleWokenRunner .aboutToWait).1.event_received
        = true) ∧
    (sampleWokenRunner.reset_on_update.event_received = true) ∧
    (∀ s : LibRs.WinitAppRunnerState,
        (LibRs.run_app_update_if_should PluginsState.cleaned s).1.window_event_received
            = false ∧
        (LibRs.run_app_update_if_should PluginsState.cleaned s).1.device_event_received
            = false) := by
  refine ⟨⟨rfl, rfl⟩, rfl, ?_⟩
  intro s
  unfold LibRs.run_app_update_if_should LibRs.WinitAppRunnerState.reset_on_update
  by_cases h : s.active.should_run <;> simp [h]

/-- Claim C3, amended: in lib.rs the guard inside
`run_app_update_if_should` means the tick never runs unless
`should_run()` holds; in state.rs, when no forced override applies
(startup counter zero, no suspend/resume edge) the tick only runs at an
idle decision while `is_active()` holds. (The counterexample theorem
shows the overrides of state.rs do invoke the tick while not active.) -/
theorem claim3_amended_active_guard :
    (∀ (plugins : PluginsState) (s : LibRs.WinitAppRunnerState),
        (LibRs.run_app_update_if_should plugins s).2 = true →
        s.active.should_run = true) ∧
    (∀ (env : WorldEnv) (s : WinitAppRunnerState),
        env.scaleFactorAbort = false →
        s.startup_forced_updates = 0 →
        s.activity_state ≠ .willSuspend →
        s.activity_state ≠ .willResume →
        ∀ a : UpdateState,
          (handle_winit_event env s .aboutToWait).2.activityAtUpdate = some a →
          a.is_active = true) := by
  constructor
  · intro plugins s h
    by_cases hr : s.active.should_run
    · exact hr
    · exfalso
      unfold LibRs.run_app_update_if_should LibRs.WinitAppRunnerState.reset_on_update at h
      simp [hr] at h
  · intro env s habort hcnt hsus hres a ha
    rw [handle_aboutToWait_eq env s habort, idleTail_activityAtUpdate] at ha
    have ht0 : (latchRedraw env (preambleState env s .aboutToWait)).startup_forced_updates
        = 0 := by
      rw [latchRedraw_startup, preambleState_startup, hcnt]
    have ht1 : (latchRedraw env (preambleState env s .aboutToWait)).activity_state
        = s.activity_state := by
      rw [latchRedraw_activity_state, preambleState_activity_state]
    rw [ifd_no_force _ ht0 (ht1 ▸ hsus) (ht1 ▸ hres)] at ha
    by_cases hsu : (latchRedraw env (preambleState env s .aboutToWait)).should_update
    · have hact : a = (latchRedraw env (preambleState env s .aboutToWait)).activity_state := by
        rw [if_pos hsu] at ha
        exact (Option.some.inj ha).symm
      have := hsu
      unfold WinitAppRunnerState.should_update at this
      rw [hact]
      exact (Bool.and_eq_true _ _).mp this |>.2
    · rw [if_neg hsu] at ha
      cases ha

/-- Witness for C3 (amended) at a concrete cleaned lib.rs runner state
and at the settled sample runner with its wait timer elapsed. -/
theorem claim3_amended_witness :
    (LibRs.run_app_update_if_should PluginsState.cleaned
        { active := .active, update_mode := .continuous,
          window_event_received := false, device_event_received := false,
          redraw_requested := false, wait_elapsed := true,
          startup_forced_updates := 0 }).2 = true ∧
    UpdateState.is_active .active = true :=
  ⟨rfl,
   claim3_amended_active_guard.2 sampleEnv sampleElapsedRunner rfl rfl
     (by decide) (by decide) .active rfl⟩

/-- Counterexample for C3 as stated: the very first idle decision from
the default runner state (activity `NotYetStarted`, inside the startup
forced-update window) invokes the engine tick while `is_active()` is
false; and after a `Suspended` lifecycle event, the next idle decision
first moves the activity state to `Suspended` and then invokes the tick,
again while `is_active()` is false. -/
theorem claim3_counterexample :
    ((handle_winit_event sampleEnv winitAppRunnerStateDefault .aboutToWait).2.appTicked
        = true ∧
      (handle_winit_event sampleEnv winitAppRunnerStateDefault .aboutToWait).2.activityAtUpdate
        = some .notYetStarted ∧
      UpdateState.is_active .notYetStarted = false) ∧
    ((handle_winit_event sampleEnv
          (handle_winit_event sampleEnv sampleIdleRunner .suspended).1
          .aboutToWait).2.appTicked = true ∧
      (handle_winit_event sampleEnv
          (handle_winit_event sampleEnv sampleIdleRunner .suspended).1
          .aboutToWait).2.activityAtUpdate = some .suspended ∧
      UpdateState.is_active .suspended = false) :=
  ⟨⟨rfl, rfl, rfl⟩, ⟨rfl, rfl, rfl⟩⟩
